import Mathlib

/-!
Verification of the Overpass data-processing and UI-state logic of the
Smolensk interactive map component (src/src/components/SmolenskMap.tsx).

The component has three pieces of behaviour that are modelled here:

1. The parsing loop of the useOverpassData hook (lines 83-102): each fetched
   element is skipped unless its type is "way" and both its geometry and
   tags fields are present; an element with a truthy highway tag becomes a
   road polyline; otherwise an element with a truthy building tag and more
   than two geometry points becomes a building polygon, closed by appending
   the first point when first and last differ; buildings are capped at 4000
   by slice(0, 4000), roads are not capped.

2. The effect lifecycle of useOverpassData (lines 60-113): a cancellation
   flag is set by the effect cleanup; a resolving fetch applies its results
   (or its error) only when the flag is still unset.

3. The selection state of SmolenskMap (lines 119-151, 268-275): clicking a
   point stores its id in activePoint and opens the panel; the Close button
   only clears panelOpen.

JavaScript numbers are modelled as rationals: the loop only copies and
compares coordinates, it performs no arithmetic on them. A JavaScript
record lookup such as el.tags["highway"] is truthy exactly when the key is
present with a non-empty string value; this is the truthy predicate below.
-/

/-- A latitude/longitude pair, as stored in the roads and buildings state
(the source type is Array of two-element number arrays). -/
abbrev LatLng : Type := ℚ × ℚ

/-- One polyline or polygon: an ordered list of latitude/longitude pairs. -/
abbrev Polyline : Type := List LatLng

/-- One geometry point of an Overpass element, with named lat and lon
fields as in the OverpassElement interface. -/
structure GeoPoint where
  lat : ℚ
  lon : ℚ
deriving DecidableEq

/-- An element of the Overpass response: the OverpassElement interface.
The tags field is a string-to-string record, modelled as an association
list; tags and geometry are optional, as in the interface. -/
structure OverpassElement where
  type : String
  id : Int
  tags : Option (List (String × String))
  geometry : Option (List GeoPoint)
deriving DecidableEq

/-- JavaScript truthiness of a record lookup of a string field: the key
must be present and the value must be a non-empty string. -/
def truthy : Option String → Bool
  | none => false
  | some s => s != ""

/-- Lookup of a tag value, el.tags[key]; the getD is only reached under
the guard that tags is present. -/
def getTag (el : OverpassElement) (key : String) : Option String :=
  (el.tags.getD []).lookup key

/-- The map from a geometry point list to stored pairs:
el.geometry.map(p => [p.lat, p.lon]). -/
def latLonLine (geom : List GeoPoint) : Polyline :=
  geom.map fun p => (p.lat, p.lon)

/-- The polygon-closing step of the building branch (lines 93-95): when
the first and the last point differ in either coordinate, the first point
is appended. Only reached with more than two points, so the default
values of headI and getLastI are never used. -/
def closePoly (poly : Polyline) : Polyline :=
  let first := poly.headI
  let last := poly.getLastI
  if first.1 ≠ last.1 ∨ first.2 ≠ last.2 then poly ++ [first] else poly

/-- The parsing loop of useOverpassData (lines 83-99): fold over the
fetched elements, producing the roads list and the uncapped buildings
list, in input order. -/
def parseElements : List OverpassElement → List Polyline × List Polyline
  | [] => ([], [])
  | el :: rest =>
    let acc := parseElements rest
    if el.type ≠ "way" ∨ el.geometry = none ∨ el.tags = none then acc
    else if truthy (getTag el "highway") = true then
      (latLonLine (el.geometry.getD []) :: acc.1, acc.2)
    else if truthy (getTag el "building") = true then
      let poly := latLonLine (el.geometry.getD [])
      if 2 < poly.length then (acc.1, closePoly poly :: acc.2) else acc
    else acc

/-- The state committed on a successful, uncancelled fetch (lines
101-102): setRoads(_roads); setBuildings(_buildings.slice(0, 4000)). -/
def overpassOutputs (elements : List OverpassElement) : List Polyline × List Polyline :=
  ((parseElements elements).1, (parseElements elements).2.take 4000)

/-- The classification used by the roads branch (lines 86-87): a way with
geometry and tags whose highway tag is truthy. -/
def isRoadElement (el : OverpassElement) : Bool :=
  el.type == "way" && !el.geometry.isNone && !el.tags.isNone &&
    truthy (getTag el "highway")

/-- The classification used by the buildings branch (lines 86-89): a way
with geometry and tags, a falsy highway tag, and a truthy building tag. -/
def isBuildingElement (el : OverpassElement) : Bool :=
  el.type == "way" && !el.geometry.isNone && !el.tags.isNone &&
    !truthy (getTag el "highway") && truthy (getTag el "building")

/-- A building element kept by the loop: its polygon has more than two
points (line 92). -/
def isKeptBuilding (el : OverpassElement) : Bool :=
  isBuildingElement el && decide (2 < (latLonLine (el.geometry.getD [])).length)

/-- The four state cells of the useOverpassData hook. -/
structure HookState where
  roads : List Polyline
  buildings : List Polyline
  loading : Bool
  error : Option String
deriving DecidableEq

/-- The outcome a fetch resolves with: a parsed element list on success,
or a thrown error whose message may be absent (lines 80, 103). -/
inductive FetchOutcome where
  | success (elements : List OverpassElement)
  | failure (msg : Option String)
deriving DecidableEq

/-- Resolution of a fetch against the cancellation flag (lines 82-107).
On success with the flag set, the early return skips every state update;
otherwise roads, buildings and loading are set. On failure, the catch and
finally blocks check the flag before setting error and loading. -/
def applyOutcome (cancelled : Bool) (r : FetchOutcome) (s : HookState) : HookState :=
  match r with
  | .success elements =>
    if cancelled then s
    else { s with
      roads := (parseElements elements).1
      buildings := (parseElements elements).2.take 4000
      loading := false }
  | .failure msg =>
    if cancelled then s
    else { s with
      error := some (msg.getD "Failed to load map data")
      loading := false }

/-- The hook together with the effect epoch: every effect run (one per
bounding-box value) gets a fresh epoch, and the cleanup of an old run
sets its cancellation flag, so a fetch started at epoch e is cancelled
exactly when e is no longer the current epoch. -/
structure EffectState where
  hook : HookState
  epoch : Nat
deriving DecidableEq

/-- A bounding-box change (or remount): the old effect is cleaned up
(its flag set), and the new effect run synchronously sets loading and
clears error before fetching (lines 63-64, 110-112). -/
def startEffect (s : EffectState) : EffectState :=
  { hook := { s.hook with loading := true, error := none }, epoch := s.epoch + 1 }

/-- The fetch started at epoch e resolves with outcome r: its flag is set
exactly when e is not the current epoch. -/
def resolveEffect (e : Nat) (r : FetchOutcome) (s : EffectState) : EffectState :=
  { s with hook := applyOutcome (e != s.epoch) r s.hook }

/-- The selection state of SmolenskMap (lines 119-120). -/
structure SelectionState where
  panelOpen : Bool
  activePoint : Option Int
deriving DecidableEq

/-- handlePointClick (lines 148-151): store the clicked id and open the
panel. -/
def handlePointClick (id : Int) (s : SelectionState) : SelectionState :=
  { s with activePoint := some id, panelOpen := true }

/-- The Close button handler (line 270): only panelOpen is cleared. -/
def handleCloseClick (s : SelectionState) : SelectionState :=
  { s with panelOpen := false }

/-- A point of interest (lines 139-146). -/
structure Poi where
  id : Int
  name : String
  coords : LatLng
deriving DecidableEq

/-- The three fixed points of interest of the component. -/
def points : List Poi :=
  [⟨1, "Smolensk Center", (547818 / 10000, 320401 / 10000)⟩,
   ⟨2, "Lopatinsky Garden", (547769 / 10000, 320496 / 10000)⟩,
   ⟨3, "Smolensk Fortress Wall", (547838 / 10000, 320436 / 10000)⟩]

/-- A point p renders as active exactly when activePoint === p.id
(line 230). -/
def pointActive (s : SelectionState) (p : Poi) : Bool :=
  s.activePoint == some p.id

/-- The worked example element of the specification: a building-tagged
way with a three-point open geometry. -/
def exampleBuilding : OverpassElement :=
  { type := "way", id := 1, tags := some [("building", "yes")],
    geometry := some [⟨1, 1⟩, ⟨1, 2⟩, ⟨2, 2⟩] }

/-- A building-tagged way whose geometry has only two points. -/
def twoPointBuilding : OverpassElement :=
  { type := "way", id := 2, tags := some [("building", "yes")],
    geometry := some [⟨0, 0⟩, ⟨0, 1⟩] }

/-- A node element: skipped by the type check. -/
def nodeElement : OverpassElement :=
  { type := "node", id := 3, tags := some [("building", "yes")],
    geometry := some [⟨0, 0⟩, ⟨0, 1⟩, ⟨1, 1⟩] }

lemma parseElements_cons_skip (el : OverpassElement) (rest : List OverpassElement)
    (h : el.type ≠ "way" ∨ el.geometry = none ∨ el.tags = none) :
    parseElements (el :: rest) = parseElements rest := by
  simp only [parseElements]
  rw [if_pos h]

lemma parseElements_cons_road (el : OverpassElement) (rest : List OverpassElement)
    (hs : ¬(el.type ≠ "way" ∨ el.geometry = none ∨ el.tags = none))
    (hhw : truthy (getTag el "highway") = true) :
    parseElements (el :: rest) =
      (latLonLine (el.geometry.getD []) :: (parseElements rest).1,
       (parseElements rest).2) := by
  simp only [parseElements]
  rw [if_neg hs, if_pos hhw]

lemma parseElements_cons_building (el : OverpassElement) (rest : List OverpassElement)
    (hs : ¬(el.type ≠ "way" ∨ el.geometry = none ∨ el.tags = none))
    (hhw : truthy (getTag el "highway") = false)
    (hb : truthy (getTag el "building") = true)
    (hlen : 2 < (latLonLine (el.geometry.getD [])).length) :
    parseElements (el :: rest) =
      ((parseElements rest).1,
       closePoly (latLonLine (el.geometry.getD [])) :: (parseElements rest).2) := by
  simp only [parseElements]
  rw [if_neg hs, if_neg (by simp [hhw]), if_pos hb, if_pos hlen]

lemma parseElements_cons_building_small (el : OverpassElement) (rest : List OverpassElement)
    (hs : ¬(el.type ≠ "way" ∨ el.geometry = none ∨ el.tags = none))
    (hhw : truthy (getTag el "highway") = false)
    (hb : truthy (getTag el "building") = true)
    (hlen : ¬2 < (latLonLine (el.geometry.getD [])).length) :
    parseElements (el :: rest) = parseElements rest := by
  simp only [parseElements]
  rw [if_neg hs, if_neg (by simp [hhw]), if_pos hb, if_neg hlen]

lemma parseElements_cons_untagged (el : OverpassElement) (rest : List OverpassElement)
    (hs : ¬(el.type ≠ "way" ∨ el.geometry = none ∨ el.tags = none))
    (hhw : truthy (getTag el "highway") = false)
    (hb : truthy (getTag el "building") = false) :
    parseElements (el :: rest) = parseElements rest := by
  simp only [parseElements]
  rw [if_neg hs, if_neg (by simp [hhw]), if_neg (by simp [hb])]

lemma parseElements_eq (elements : List OverpassElement) :
    parseElements elements =
      ((elements.filter isRoadElement).map fun el => latLonLine (el.geometry.getD []),
       (elements.filter isKeptBuilding).map fun el =>
         closePoly (latLonLine (el.geometry.getD []))) := by
  induction elements with
  | nil => rfl
  | cons el rest ih =>
    by_cases hs : el.type ≠ "way" ∨ el.geometry = none ∨ el.tags = none
    · have hr : isRoadElement el = false := by
        rcases hs with h | h | h <;>
          simp [isRoadElement, h, Option.isNone_iff_eq_none]
      have hk : isKeptBuilding el = false := by
        rcases hs with h | h | h <;>
          simp [isKeptBuilding, isBuildingElement, h, Option.isNone_iff_eq_none]
      rw [parseElements_cons_skip el rest hs, ih]
      simp [List.filter_cons, hr, hk]
    · have hs2 := hs
      push_neg at hs2
      obtain ⟨hty, hg, ht⟩ := hs2
      by_cases hhw : truthy (getTag el "highway") = true
      · have hr : isRoadElement el = true := by
          simp [isRoadElement, hty, Option.isNone_iff_eq_none, hg, ht, hhw,
            Option.isSome_iff_ne_none]
        have hk : isKeptBuilding el = false := by
          simp [isKeptBuilding, isBuildingElement, hhw]
        rw [parseElements_cons_road el rest hs hhw, ih]
        simp [List.filter_cons, hr, hk]
      · have hhw2 : truthy (getTag el "highway") = false := by
          simpa using hhw
        have hr : isRoadElement el = false := by
          simp [isRoadElement, hhw2]
        by_cases hb : truthy (getTag el "building") = true
        · by_cases hlen : 2 < (latLonLine (el.geometry.getD [])).length
          · have hk : isKeptBuilding el = true := by
              simp [isKeptBuilding, isBuildingElement, hty,
                Option.isNone_iff_eq_none, hg, ht, hhw2, hb, hlen,
                Option.isSome_iff_ne_none]
            rw [parseElements_cons_building el rest hs hhw2 hb hlen, ih]
            simp [List.filter_cons, hr, hk]
          · have hk : isKeptBuilding el = false := by
              simp [isKeptBuilding, hlen]
            rw [parseElements_cons_building_small el rest hs hhw2 hb hlen, ih]
            simp [List.filter_cons, hr, hk]
        · have hb2 : truthy (getTag el "building") = false := by
            simpa using hb
          have hk : isKeptBuilding el = false := by
            simp [isKeptBuilding, isBuildingElement, hb2]
          rw [parseElements_cons_untagged el rest hs hhw2 hb2, ih]
          simp [List.filter_cons, hr, hk]

lemma closePoly_head_getLast (p : Polyline) (hp : p ≠ []) :
    ∃ c, (closePoly p).head? = some c ∧ (closePoly p).getLast? = some c := by
  obtain ⟨a, as, rfl⟩ := List.exists_cons_of_ne_nil hp
  simp only [closePoly]
  by_cases h : (a :: as).headI.1 ≠ (a :: as).getLastI.1 ∨
      (a :: as).headI.2 ≠ (a :: as).getLastI.2
  · rw [if_pos h]
    refine ⟨a, rfl, ?_⟩
    simpa using List.getLast?_concat (a :: as)
  · rw [if_neg h]
    push_neg at h
    have hne : (a :: as) ≠ [] := List.cons_ne_nil a as
    have hfl : (a :: as).headI = (a :: as).getLastI := Prod.ext h.1 h.2
    have hgl : (a :: as).getLastI = (a :: as).getLast hne := by
      rw [List.getLastI_eq_getLast?, List.getLast?_eq_getLast_of_ne_nil hne]
    refine ⟨a, rfl, ?_⟩
    rw [List.getLast?_eq_getLast_of_ne_nil hne, ← hgl, ← hfl]
    rfl

lemma length_le_closePoly (p : Polyline) : p.length ≤ (closePoly p).length := by
  simp only [closePoly]
  split
  · simp
  · exact le_refl _

lemma parseElements_replicate_building (n : Nat) :
    parseElements (List.replicate n exampleBuilding) =
      ([], List.replicate n
        (closePoly (latLonLine (exampleBuilding.geometry.getD [])))) := by
  induction n with
  | zero => rfl
  | succ n ih =>
    rw [List.replicate_succ,
      parseElements_cons_building _ _ (by decide) (by decide) (by decide) (by decide),
      ih, List.replicate_succ]

/-- Claim C1: every polygon in the building output has equal first and
last coordinate pairs, whether or not the input geometry was already
closed. -/
theorem C1_building_polygons_closed (elements : List OverpassElement) (poly : Polyline)
    (h : poly ∈ (overpassOutputs elements).2) :
    ∃ c, poly.head? = some c ∧ poly.getLast? = some c := by
  have h2 : poly ∈ (parseElements elements).2 := by
    simp only [overpassOutputs] at h
    exact List.mem_of_mem_take h
  rw [parseElements_eq] at h2
  simp only [List.mem_map, List.mem_filter] at h2
  obtain ⟨el, ⟨-, hk⟩, rfl⟩ := h2
  apply closePoly_head_getLast
  simp only [isKeptBuilding, Bool.and_eq_true, decide_eq_true_eq] at hk
  intro hnil
  rw [hnil] at hk
  simp at hk

/-- Closed witness for claim C1 at the worked example element. -/
theorem C1_building_polygons_closed_witness :
    ([((1 : ℚ), (1 : ℚ)), (1, 2), (2, 2), (1, 1)] : Polyline) ∈
        (overpassOutputs [exampleBuilding]).2 ∧
    ∃ c, ([((1 : ℚ), (1 : ℚ)), (1, 2), (2, 2), (1, 1)] : Polyline).head? = some c ∧
      ([((1 : ℚ), (1 : ℚ)), (1, 2), (2, 2), (1, 1)] : Polyline).getLast? = some c :=
  ⟨by decide, C1_building_polygons_closed [exampleBuilding] _ (by decide)⟩

/-- Claim C2: the roads output is exactly the highway-tagged way elements
in input order, each mapped pointwise to its geometry as lat/lon pairs,
so point order and count are preserved. -/
theorem C2_roads_preserve_points (elements : List OverpassElement) :
    (overpassOutputs elements).1 =
      (elements.filter isRoadElement).map fun el =>
        (el.geometry.getD []).map fun p => (p.lat, p.lon) := by
  simp only [overpassOutputs]
  rw [parseElements_eq]
  simp [latLonLine]

/-- Claim C3: the building output never exceeds 4000 entries, the roads
output is not truncated, and on an input of 4001 qualifying structure
elements the uncapped list has 4001 entries while the output has 4000. -/
theorem C3_building_cap (elements : List OverpassElement) :
    (overpassOutputs elements).2.length ≤ 4000 ∧
    (overpassOutputs elements).1 = (parseElements elements).1 ∧
    (parseElements (List.replicate 4001 exampleBuilding)).2.length = 4001 ∧
    (overpassOutputs (List.replicate 4001 exampleBuilding)).2.length = 4000 := by
  refine ⟨List.length_take_le _ _, rfl, ?_, ?_⟩
  · rw [parseElements_replicate_building]
    exact List.length_replicate 4001 _
  · simp only [overpassOutputs]
    rw [parseElements_replicate_building]
    rw [show ((([], List.replicate 4001
        (closePoly (latLonLine (exampleBuilding.geometry.getD [])))) :
        List Polyline × List Polyline)).2 = List.replicate 4001
        (closePoly (latLonLine (exampleBuilding.geometry.getD []))) from rfl]
    rw [List.length_take, List.length_replicate]
    omega

/-- Counterexample for claim C4: a structure-tagged way with geometry
(two points) contributes no polygon to the building output at all,
refuting the claim that every such element contributes one polygon
before the cap. -/
theorem C4_counterexample :
    twoPointBuilding.type = "way" ∧
    twoPointBuilding.geometry.isSome = true ∧
    twoPointBuilding.tags.isSome = true ∧
    truthy (getTag twoPointBuilding "building") = true ∧
    (parseElements [twoPointBuilding]).2 = [] ∧
    (overpassOutputs [twoPointBuilding]).2 = [] := by
  decide

/-- Claim C4 (amended): the roads output is exactly the road-classified
elements in order, the uncapped building output is exactly the
building-classified elements with more than two geometry points in
order, each closed, and no element is classified both ways. -/
theorem C4_partition_amended (elements : List OverpassElement) :
    (parseElements elements).1 =
      (elements.filter isRoadElement).map
        (fun el => latLonLine (el.geometry.getD [])) ∧
    (parseElements elements).2 =
      (elements.filter isKeptBuilding).map
        (fun el => closePoly (latLonLine (el.geometry.getD []))) ∧
    ∀ el : OverpassElement, (isRoadElement el && isBuildingElement el) = false := by
  refine ⟨?_, ?_, ?_⟩
  · rw [parseElements_eq]
  · rw [parseElements_eq]
  · intro el
    cases h : truthy (getTag el "highway") <;>
      simp [isRoadElement, isBuildingElement, h]

/-- Claim C5: a fetch started at an epoch that is no longer current (the
bounding box changed or the component unmounted before it resolved)
updates none of the four state cells, whatever its outcome; and after a
bounding-box change every previously started fetch is stale. -/
theorem C5_stale_fetch_ignored (s : EffectState) (e : Nat) (r : FetchOutcome)
    (h : e ≠ s.epoch) :
    resolveEffect e r s = s ∧
    ∀ (t : EffectState) (e2 : Nat), e2 ≤ t.epoch → e2 ≠ (startEffect t).epoch := by
  constructor
  · have hb : (e != s.epoch) = true := by simpa [bne_iff_ne] using h
    cases r <;> simp [resolveEffect, applyOutcome, hb]
  · intro t e2 hle
    simp only [startEffect]
    omega

/-- Closed witness for claim C5. -/
theorem C5_stale_fetch_ignored_witness :
    resolveEffect 0 (FetchOutcome.failure none)
        { hook := { roads := [], buildings := [], loading := true, error := none },
          epoch := 1 } =
      { hook := { roads := [], buildings := [], loading := true, error := none },
        epoch := 1 } ∧
    (0 : Nat) ≠ (startEffect
      { hook := { roads := [], buildings := [], loading := true, error := none },
        epoch := 0 }).epoch := by
  have h := C5_stale_fetch_ignored
    { hook := { roads := [], buildings := [], loading := true, error := none },
      epoch := 1 } 0 (FetchOutcome.failure none) (by decide)
  exact ⟨h.1, h.2
    { hook := { roads := [], buildings := [], loading := true, error := none },
      epoch := 0 } 0 (by decide)⟩

/-- Claim C6: the worked example element yields exactly the closed
polygon of the specification, both before and after the cap. -/
theorem C6_worked_example :
    (parseElements [exampleBuilding]).2 = [[(1, 1), (1, 2), (2, 2), (1, 1)]] ∧
    (overpassOutputs [exampleBuilding]).2 = [[(1, 1), (1, 2), (2, 2), (1, 1)]] := by
  decide

/-- Claim C7: clicking a point stores its id and opens the panel; the
Close button clears only panelOpen, leaving activePoint as it was; and
among the three points of interest at most one renders as active. -/
theorem C7_selection_state (s : SelectionState) (id : Int) :
    (handlePointClick id s).activePoint = some id ∧
    (handlePointClick id s).panelOpen = true ∧
    (handleCloseClick s).panelOpen = false ∧
    (handleCloseClick s).activePoint = s.activePoint ∧
    ∀ p q : Poi, p ∈ points → q ∈ points →
      pointActive s p = true → pointActive s q = true → p = q := by
  refine ⟨rfl, rfl, rfl, rfl, ?_⟩
  intro p q hp hq hap haq
  simp only [pointActive, beq_iff_eq] at hap haq
  rw [hap] at haq
  have hid : p.id = q.id := Option.some.inj haq
  fin_cases hp <;> fin_cases hq <;> first
    | rfl
    | exact absurd hid (by decide)

/-- Closed witness for claim C7. -/
theorem C7_selection_state_witness :
    (handlePointClick 2 { panelOpen := true, activePoint := some 1 }).activePoint =
      some 2 ∧
    (handlePointClick 2 { panelOpen := true, activePoint := some 1 }).panelOpen =
      true ∧
    (handleCloseClick { panelOpen := true, activePoint := some 1 }).panelOpen =
      false ∧
    (handleCloseClick { panelOpen := true, activePoint := some 1 }).activePoint =
      some 1 ∧
    (⟨1, "Smolensk Center", (547818 / 10000, 320401 / 10000)⟩ : Poi) =
      ⟨1, "Smolensk Center", (547818 / 10000, 320401 / 10000)⟩ := by
  have h := C7_selection_state { panelOpen := true, activePoint := some 1 } 2
  exact ⟨h.1, h.2.1, h.2.2.1, h.2.2.2.1,
    h.2.2.2.2 _ _ (List.mem_cons_self _ _) (List.mem_cons_self _ _) rfl rfl⟩

/-- Claim C8: an uncancelled failed fetch stores an error message while
leaving the roads and buildings state untouched. -/
theorem C8_failure_keeps_geometry (s : HookState) (msg : Option String) :
    (applyOutcome false (FetchOutcome.failure msg) s).error =
      some (msg.getD "Failed to load map data") ∧
    (applyOutcome false (FetchOutcome.failure msg) s).roads = s.roads ∧
    (applyOutcome false (FetchOutcome.failure msg) s).buildings = s.buildings :=
  ⟨rfl, rfl, rfl⟩

/-- Claim C9: an element that is not a way, or lacks geometry, or lacks
tags, contributes nothing to either output. -/
theorem C9_skipped_elements (el : OverpassElement) (rest : List OverpassElement)
    (h : el.type ≠ "way" ∨ el.geometry = none ∨ el.tags = none) :
    parseElements (el :: rest) = parseElements rest :=
  parseElements_cons_skip el rest h

/-- Closed witness for claim C9 at a node element. -/
theorem C9_skipped_elements_witness :
    parseElements [nodeElement] = parseElements [] :=
  C9_skipped_elements nodeElement [] (Or.inl (by decide))

/-- Claim C10: a structure-tagged element with at most two geometry
points yields no building polygon, and every polygon in the building
output has at least three points. -/
theorem C10_building_min_points :
    (∀ (el : OverpassElement) (rest : List OverpassElement),
      truthy (getTag el "building") = true →
      (el.geometry.getD []).length ≤ 2 →
      (parseElements (el :: rest)).2 = (parseElements rest).2) ∧
    ∀ (elements : List OverpassElement) (poly : Polyline),
      poly ∈ (overpassOutputs elements).2 → 3 ≤ poly.length := by
  constructor
  · intro el rest hb hlen
    have h2 : ¬2 < (latLonLine (el.geometry.getD [])).length := by
      simp only [latLonLine, List.length_map]
      omega
    have hk : isKeptBuilding el = false := by
      simp [isKeptBuilding, h2]
    rw [parseElements_eq (el :: rest), parseElements_eq rest]
    simp [List.filter_cons, hk]
  · intro elements poly h
    have h2 : poly ∈ (parseElements elements).2 := by
      simp only [overpassOutputs] at h
      exact List.mem_of_mem_take h
    rw [parseElements_eq] at h2
    simp only [List.mem_map, List.mem_filter] at h2
    obtain ⟨el, ⟨-, hk⟩, rfl⟩ := h2
    simp only [isKeptBuilding, Bool.and_eq_true, decide_eq_true_eq] at hk
    exact le_trans hk.2 (length_le_closePoly _)

/-- Closed witness for claim C10. -/
theorem C10_building_min_points_witness :
    (parseElements [twoPointBuilding]).2 = (parseElements []).2 ∧
    3 ≤ ([((1 : ℚ), (1 : ℚ)), (1, 2), (2, 2), (1, 1)] : Polyline).length :=
  ⟨C10_building_min_points.1 twoPointBuilding [] (by decide) (by decide),
   C10_building_min_points.2 [exampleBuilding] _ (by decide)⟩
